import Mathlib

/-
Verification of holoviews/element/comparison.py: deep structural equality
assertions for holoviews objects, built around a type-dispatch table
(`equality_type_funcs`) consulted by `ComparisonInterface.assertEqual`,
with per-type comparison rules on the `Comparison` class.

The Python data model is shallowly embedded: each concrete Python type that
the dispatch table can key on becomes a tag in `PyType`, and the objects the
comparison functions inspect become constructors of `Value` carrying exactly
the fields the source reads (value/label, dimension lists, data arrays,
tree paths, mapping keys, rows/cols, bounds).  Python floats are modelled as
rationals, numpy arrays as lists of rationals, exceptions as an `Except`
error channel.  Recursion through the dispatch table is made total with an
explicit step budget (`fuel`); running out of budget is the distinguished
outcome `PyError.fuelOut`, which never occurs for sufficient fuel.
-/

namespace Holoviews

/-- Tags for the concrete Python types that appear as keys of
`equality_type_funcs` or as types of values the comparators receive. -/
inductive PyType where
  | float
  | npFloat32
  | npFloat64
  | ndarray
  | dimension
  | dimensioned
  | element
  | overlay
  | layoutTree
  | vline
  | hline
  | spline
  | arrow
  | text
  | matrix
  | curve
  | histogram
  | raster
  | heatMap
  | itemTable
  | table
  | contours
  | points
  | vectorField
  | dataFrameView
  | pandasDFrame
  | dframe
  | bivariate
  | distribution
  | regression
  | timeSeries
  | ndLayout
  | adjointLayout
  | ndOverlay
  | axisLayout
  | holoMap
  | options
  | str
  | int
  | bool
  | noneType
  | dict
deriving DecidableEq, Repr

/-- In the numpy version this code targets, np.float is an alias of the
builtin float type, so registering np.float writes to the same dict key. -/
def np_float : PyType := PyType.float

/-- Names of the comparison classmethods of `Comparison` that the register
method installs into the dispatch table. -/
inductive FuncName where
  | compare_floats
  | compare_arrays
  | compare_dimensions
  | compare_dimensioned
  | compare_elements
  | compare_overlays
  | compare_layouttrees
  | compare_vline
  | compare_hline
  | compare_spline
  | compare_arrow
  | compare_text
  | compare_matrix
  | compare_curve
  | compare_histogram
  | compare_raster
  | compare_heatmap
  | compare_itemtables
  | compare_tables
  | compare_contours
  | compare_points
  | compare_vectorfield
  | compare_dframe
  | compare_bivariate
  | compare_distribution
  | compare_regression
  | compare_timeseries
  | compare_gridlayout
  | compare_adjointlayouts
  | compare_ndoverlays
  | compare_grids
  | compare_holomap
  | compare_options
deriving DecidableEq, Repr

/-- An entry of `equality_type_funcs`: either a bound comparison function or
a string naming a class attribute (`assertEqual` resolves strings through
getattr).  The register method only ever stores functions, but the dispatch
code supports both. -/
inductive Asserter where
  | fn (f : FuncName)
  | sname (s : String)
deriving DecidableEq, Repr

/-- The fields of a holoviews `Dimension` object that
`compare_dimensions` reads, with concrete comparable field types. -/
structure Dim where
  name : String
  cyclic : Bool
  range : Option (Int × Int)
  type : String
  unit : String
  values : List Int
  format_string : String
deriving DecidableEq, Repr

/-- The `Dimensioned` metadata shared by all labelled holoviews objects:
the value and label strings and the two dimension lists, exactly the
attributes read by `compare_labelled_data` and `compare_dimensioned`. -/
structure LabelMeta where
  value : String
  label : String
  value_dimensions : List Dim
  key_dimensions : List Dim
deriving DecidableEq, Repr

/-- The five annotation element types. -/
inductive AnnoKind where
  | vline
  | hline
  | spline
  | arrow
  | text
deriving DecidableEq, Repr

/-- Element types whose comparator is `compare_dimensioned` followed by a
single `compare_arrays` on the `.data` attribute. -/
inductive ChartKind where
  | curve
  | raster
  | heatMap
  | distribution
  | timeSeries
  | bivariate
  | regression
deriving DecidableEq, Repr

/-- The two scatter-style chart types with a length check before the
array comparison. -/
inductive PointsKind where
  | points
  | vectorField
deriving DecidableEq, Repr

/-- The NdMapping-based container types that share key/element storage. -/
inductive MapKind where
  | holoMap
  | ndLayout
  | ndOverlay
  | axisLayout
deriving DecidableEq, Repr

/-- The three DataFrame-backed view types, all registered to
`compare_dframe`. -/
inductive DFrameKind where
  | dataFrameView
  | pandasDFrame
  | dframe
deriving DecidableEq, Repr

/-- Shallow embedding of the Python values the comparison code can see:
scalars, numpy arrays, dicts, and the holoviews object variants with the
fields their comparators access.  Floats are rationals; a DataFrame is a
list of named rational columns; tree containers store ordered
path/value items; NdMappings store ordered key/element entries. -/
inductive Value where
  | str (s : String)
  | int (n : Int)
  | pybool (b : Bool)
  | pynone
  | pyfloat (q : ℚ)
  | npFloat32 (q : ℚ)
  | npFloat64 (q : ℚ)
  | ndarray (xs : List ℚ)
  | pydict (entries : List (String × Value))
  | dimension (d : Dim)
  | dimensioned (m : LabelMeta)
  | element (m : LabelMeta) (data : Value)
  | annot (k : AnnoKind) (m : LabelMeta) (data : Value)
  | overlay (m : LabelMeta) (items : List (List String × Value))
  | layoutTree (m : LabelMeta) (items : List (List String × Value))
  | chart (k : ChartKind) (m : LabelMeta) (data : List ℚ)
  | histogram (m : LabelMeta) (edges : List ℚ) (vals : List ℚ)
  | matrix (m : LabelMeta) (data : List ℚ) (lbrt : Int × Int × Int × Int)
  | contours (m : LabelMeta) (data : List (List ℚ))
  | points (k : PointsKind) (m : LabelMeta) (data : List (List ℚ))
  | itemTable (m : LabelMeta) (rows : Int) (cols : Int)
  | table (m : LabelMeta) (rows : Int) (cols : Int)
      (entries : List (List Int × Value))
  | ndmap (k : MapKind) (m : LabelMeta) (entries : List (List Int × Value))
  | adjointLayout (m : LabelMeta) (data : List Value)
  | dframeObj (k : DFrameKind) (m : LabelMeta) (data : List (String × List ℚ))
  | options (kwargs : List (String × Value))

/-- Python type of a value, as `type(x)` would report it (exact type,
no subclassing involved for these concrete variants). -/
def typeOf : Value → PyType
  | .str _ => .str
  | .int _ => .int
  | .pybool _ => .bool
  | .pynone => .noneType
  | .pyfloat _ => .float
  | .npFloat32 _ => .npFloat32
  | .npFloat64 _ => .npFloat64
  | .ndarray _ => .ndarray
  | .pydict _ => .dict
  | .dimension _ => .dimension
  | .dimensioned _ => .dimensioned
  | .element _ _ => .element
  | .annot .vline _ _ => .vline
  | .annot .hline _ _ => .hline
  | .annot .spline _ _ => .spline
  | .annot .arrow _ _ => .arrow
  | .annot .text _ _ => .text
  | .overlay _ _ => .overlay
  | .layoutTree _ _ => .layoutTree
  | .chart .curve _ _ => .curve
  | .chart .raster _ _ => .raster
  | .chart .heatMap _ _ => .heatMap
  | .chart .distribution _ _ => .distribution
  | .chart .timeSeries _ _ => .timeSeries
  | .chart .bivariate _ _ => .bivariate
  | .chart .regression _ _ => .regression
  | .histogram _ _ _ => .histogram
  | .matrix _ _ _ => .matrix
  | .contours _ _ => .contours
  | .points .points _ _ => .points
  | .points .vectorField _ _ => .vectorField
  | .itemTable _ _ _ => .itemTable
  | .table _ _ _ _ => .table
  | .ndmap .holoMap _ _ => .holoMap
  | .ndmap .ndLayout _ _ => .ndLayout
  | .ndmap .ndOverlay _ _ => .ndOverlay
  | .ndmap .axisLayout _ _ => .axisLayout
  | .adjointLayout _ _ => .adjointLayout
  | .dframeObj .dataFrameView _ _ => .dataFrameView
  | .dframeObj .pandasDFrame _ _ => .pandasDFrame
  | .dframeObj .dframe _ _ => .dframe
  | .options _ => .options

/-- Numeric value of a Python object for cross-type numeric equality:
int, bool (True == 1), and the float types all compare by value under
Python `==`. -/
def numVal : Value → Option ℚ
  | .int n => some (n : ℚ)
  | .pybool b => some (if b then 1 else 0)
  | .pyfloat q => some q
  | .npFloat32 q => some q
  | .npFloat64 q => some q
  | _ => none

/-- Model of Python `==` on non-dict values.  Numbers compare by numeric
value across types, strings and None structurally.  An ndarray comparison
in Python is array-valued; the model collapses it to the boolean it yields
under `not (a == b)` for matching arrays (all elements equal).  Objects of
the holoviews classes have no `__eq__`, so Python compares distinct
instances by identity; the embedding has no aliasing, so such comparisons
are modelled as `false`. -/
def scalarPyEqB (v1 v2 : Value) : Bool :=
  match numVal v1, numVal v2 with
  | some a, some b => decide (a = b)
  | _, _ =>
    match v1, v2 with
    | .str s1, .str s2 => decide (s1 = s2)
    | .pynone, .pynone => true
    | .ndarray xs, .ndarray ys => decide (xs = ys)
    | .dimension d1, .dimension d2 => decide (d1 = d2)
    | _, _ => false

/-- Model of Python dict `==`: same number of keys and, for every entry of
the first dict, a matching key with an equal value in the second;
insertion order is irrelevant.  Values one level down are compared with
`scalarPyEqB`. -/
def dictEqB (d1 d2 : List (String × Value)) : Bool :=
  decide (d1.length = d2.length) &&
  d1.all (fun kv => d2.any (fun kv2 => decide (kv.1 = kv2.1) && scalarPyEqB kv.2 kv2.2))

/-- Model of the Python `==` test performed by `simple_equality`. -/
def pyEqB (v1 v2 : Value) : Bool :=
  match v1, v2 with
  | .pydict d1, .pydict d2 => dictEqB d1 d2
  | _, _ => scalarPyEqB v1 v2

/-- Simplified model of unittest.util.safe_repr, used only to build the
standard message of `simple_equality`. -/
def safeRepr : Value → String
  | .str s => s
  | .int n => toString n
  | .pybool b => if b then "True" else "False"
  | .pynone => "None"
  | .pyfloat q => reprStr q
  | .npFloat32 q => reprStr q
  | .npFloat64 q => reprStr q
  | _ => "<object>"

/-- Exceptions the embedded code can raise.  `failure` is
`cls.failureException`, i.e. AssertionError; `typeError` and
`attributeError` model the corresponding Python builtins.  `fuelOut` is
not a Python exception: it reports exhaustion of the embedding's step
budget and never occurs for sufficient fuel. -/
inductive PyError where
  | failure (msg : String)
  | typeError (msg : String)
  | attributeError (msg : String)
  | fuelOut
deriving DecidableEq, Repr

/-- Result of running one comparison: normal return or a raised error. -/
abbrev Res := Except PyError Unit

/-- ComparisonInterface.simple_equality: raise failureException unless
first == second.  Python `msg or standardMsg` uses truthiness, so an
empty message string also falls back to the standard message. -/
def simple_equality (first second : Value) (msg : Option String) : Res :=
  if pyEqB first second then Except.ok ()
  else
    Except.error (PyError.failure
      (match msg with
       | none => safeRepr first ++ " != " ++ safeRepr second
       | some m => if m = "" then safeRepr first ++ " != " ++ safeRepr second else m))

/-- Array-like arguments accepted by the numpy comparison helpers:
scalars, 1-d arrays and 2-d arrays. -/
inductive ArrayLike where
  | scalar (q : ℚ)
  | arr1 (xs : List ℚ)
  | arr2 (xss : List (List ℚ))
deriving DecidableEq, Repr

/-- Tolerance test of numpy assert_array_almost_equal at its default
decimal=6: abs(desired - actual) < 1.5 * 10^(-6). -/
def almostEqual (a b : ℚ) : Bool := decide (|a - b| < 3 / 2000000)

/-- Modelled external library: numpy.testing.assert_array_almost_equal at
its default decimal=6.  Succeeds when the arguments have matching shape
(a scalar broadcasts against an array) and all element pairs are within
tolerance; otherwise raises AssertionError whose message starts with the
newline-prefixed text "Arrays are not almost equal".  Element-level detail
of the real message is elided; broadcasting between arrays of different
rank is simplified to a shape mismatch. -/
def aaae : ArrayLike → ArrayLike → Except String Unit
  | .scalar a, .scalar b =>
    if almostEqual a b then Except.ok ()
    else Except.error ("\nArrays are not almost equal to 6 decimals")
  | .scalar a, .arr1 ys =>
    if ys.all (fun y => almostEqual a y) then Except.ok ()
    else Except.error ("\nArrays are not almost equal to 6 decimals")
  | .arr1 xs, .scalar b =>
    if xs.all (fun x => almostEqual x b) then Except.ok ()
    else Except.error ("\nArrays are not almost equal to 6 decimals")
  | .arr1 xs, .arr1 ys =>
    if xs.length ≠ ys.length then
      Except.error ("\nArrays are not almost equal (shapes mismatch)")
    else if (xs.zip ys).all (fun p => almostEqual p.1 p.2) then Except.ok ()
    else Except.error ("\nArrays are not almost equal to 6 decimals")
  | .arr2 xss, .arr2 yss =>
    if xss.map List.length ≠ yss.map List.length then
      Except.error ("\nArrays are not almost equal (shapes mismatch)")
    else if (xss.zip yss).all
        (fun r => (r.1.zip r.2).all (fun p => almostEqual p.1 p.2)) then
      Except.ok ()
    else Except.error ("\nArrays are not almost equal to 6 decimals")
  | _, _ => Except.error ("\nArrays are not almost equal (shapes mismatch)")

/-- Comparison.compare_arrays: delegate to assert_array_almost_equal and
re-raise an AssertionError as failureException with the message prefix
replaced by msg (str(e)[11:] strips the leading text "\nArrays are"). -/
def compare_arrays (arr1 arr2 : ArrayLike) (msg : Option String) : Res :=
  match aaae arr1 arr2 with
  | .ok _ => Except.ok ()
  | .error e => Except.error (PyError.failure ((msg.getD ("Arrays")) ++ e.drop 11))

/-- Comparison.compare_floats: delegate to compare_arrays with default
message Floats. -/
def compare_floats (arr1 arr2 : ArrayLike) (msg : Option String) : Res :=
  compare_arrays arr1 arr2 (some (msg.getD ("Floats")))

/-- Coercion of a Python value to the array-like accepted by the numpy
helpers: numeric scalars and ndarrays; anything else is a TypeError in
numpy, modelled as none. -/
def toArrayLike (v : Value) : Option ArrayLike :=
  match numVal v with
  | some q => some (ArrayLike.scalar q)
  | none =>
    match v with
    | .ndarray xs => some (ArrayLike.arr1 xs)
    | _ => none

/-- Comparison.compare_dimensions: check the seven Dimension fields in
source order, raising failureException at the first mismatch. -/
def compare_dimensions (dim1 dim2 : Dim) (_msg : Option String) : Res :=
  if dim1.name ≠ dim2.name then
    Except.error (PyError.failure
      ("Dimension names mismatched: " ++ dim1.name ++ " != " ++ dim2.name))
  else if dim1.cyclic ≠ dim2.cyclic then
    Except.error (PyError.failure ("Dimension cyclic declarations mismatched."))
  else if dim1.range ≠ dim2.range then
    Except.error (PyError.failure
      ("Dimension ranges mismatched: " ++ reprStr dim1.range ++ " != " ++ reprStr dim2.range))
  else if dim1.type ≠ dim2.type then
    Except.error (PyError.failure
      ("Dimension type declarations mismatched: " ++ dim1.type ++ " != " ++ dim2.type))
  else if dim1.unit ≠ dim2.unit then
    Except.error (PyError.failure
      ("Dimension unit declarations mismatched: " ++ dim1.unit ++ " != " ++ dim2.unit))
  else if dim1.values ≠ dim2.values then
    Except.error (PyError.failure
      ("Dimension value declarations mismatched: " ++ reprStr dim1.values ++ " != " ++ reprStr dim2.values))
  else if dim1.format_string ≠ dim2.format_string then
    Except.error (PyError.failure
      ("Dimension format string declarations mismatched: "
        ++ dim1.format_string ++ " != " ++ dim2.format_string))
  else Except.ok ()

/-- Comparison.bounds_check on the lbrt tuples of two Matrix bounds. -/
def bounds_check (b1 b2 : Int × Int × Int × Int) : Res :=
  if b1 ≠ b2 then Except.error (PyError.failure ("BoundingBoxes are mismatched."))
  else Except.ok ()

/-- Modelled external library: pandas.util.testing.assert_frame_equal,
which raises AssertionError when the two frames differ. -/
def assert_frame_equal (f1 f2 : List (String × List ℚ)) : Except String Unit :=
  if f1 = f2 then Except.ok () else Except.error ("DataFrame are different")

/-- Model of getattr(cls, name) for the comparison classmethods: resolves
the Python attribute name of a registered comparator. -/
def getattrFn : String → Option FuncName
  | "compare_floats" => some .compare_floats
  | "compare_arrays" => some .compare_arrays
  | "compare_dimensions" => some .compare_dimensions
  | "compare_dimensioned" => some .compare_dimensioned
  | "compare_elements" => some .compare_elements
  | "compare_overlays" => some .compare_overlays
  | "compare_layouttrees" => some .compare_layouttrees
  | "compare_vline" => some .compare_vline
  | "compare_hline" => some .compare_hline
  | "compare_spline" => some .compare_spline
  | "compare_arrow" => some .compare_arrow
  | "compare_text" => some .compare_text
  | "compare_matrix" => some .compare_matrix
  | "compare_curve" => some .compare_curve
  | "compare_histogram" => some .compare_histogram
  | "compare_raster" => some .compare_raster
  | "compare_heatmap" => some .compare_heatmap
  | "compare_itemtables" => some .compare_itemtables
  | "compare_tables" => some .compare_tables
  | "compare_contours" => some .compare_contours
  | "compare_points" => some .compare_points
  | "compare_vectorfield" => some .compare_vectorfield
  | "compare_dframe" => some .compare_dframe
  | "compare_bivariate" => some .compare_bivariate
  | "compare_distribution" => some .compare_distribution
  | "compare_regression" => some .compare_regression
  | "compare_timeseries" => some .compare_timeseries
  | "compare_gridlayout" => some .compare_gridlayout
  | "compare_adjointlayouts" => some .compare_adjointlayouts
  | "compare_ndoverlays" => some .compare_ndoverlays
  | "compare_grids" => some .compare_grids
  | "compare_holomap" => some .compare_holomap
  | "compare_options" => some .compare_options
  | _ => none

/-- The dispatch dictionary `equality_type_funcs`, modelled as an ordered
association list with dict semantics: one entry per key, insertion order
preserved, assignment to an existing key overwrites in place. -/
abbrev TypeFuncs := List (PyType × Asserter)

/-- Dict assignment d[k] = v. -/
def dinsert (d : TypeFuncs) (k : PyType) (v : Asserter) : TypeFuncs :=
  if d.any (fun kv => kv.1 == k) then
    d.map (fun kv => if kv.1 == k then (k, v) else kv)
  else d ++ [(k, v)]

/-- Dict lookup d.get(k). -/
def dget (d : TypeFuncs) (k : PyType) : Option Asserter :=
  (d.find? (fun kv => kv.1 == k)).map Prod.snd

/-- The initial value of the class attribute
`ComparisonInterface.equality_type_funcs`: an empty dict. -/
def equality_type_funcs0 : TypeFuncs := []

/-- Comparison.register: install every per-type comparison function into
equality_type_funcs (in source order) and return the dictionary.
np.float is the builtin float, so that assignment rewrites the same key. -/
def register (d0 : TypeFuncs) : TypeFuncs :=
  let d := dinsert d0 PyType.float (.fn .compare_floats)
  let d := dinsert d np_float (.fn .compare_floats)
  let d := dinsert d PyType.npFloat32 (.fn .compare_floats)
  let d := dinsert d PyType.npFloat64 (.fn .compare_floats)
  let d := dinsert d PyType.ndarray (.fn .compare_arrays)
  let d := dinsert d PyType.dimension (.fn .compare_dimensions)
  let d := dinsert d PyType.dimensioned (.fn .compare_dimensioned)
  let d := dinsert d PyType.element (.fn .compare_elements)
  let d := dinsert d PyType.overlay (.fn .compare_overlays)
  let d := dinsert d PyType.layoutTree (.fn .compare_layouttrees)
  let d := dinsert d PyType.vline (.fn .compare_vline)
  let d := dinsert d PyType.hline (.fn .compare_hline)
  let d := dinsert d PyType.spline (.fn .compare_spline)
  let d := dinsert d PyType.arrow (.fn .compare_arrow)
  let d := dinsert d PyType.text (.fn .compare_text)
  let d := dinsert d PyType.matrix (.fn .compare_matrix)
  let d := dinsert d PyType.curve (.fn .compare_curve)
  let d := dinsert d PyType.histogram (.fn .compare_histogram)
  let d := dinsert d PyType.raster (.fn .compare_raster)
  let d := dinsert d PyType.heatMap (.fn .compare_heatmap)
  let d := dinsert d PyType.itemTable (.fn .compare_itemtables)
  let d := dinsert d PyType.table (.fn .compare_tables)
  let d := dinsert d PyType.contours (.fn .compare_contours)
  let d := dinsert d PyType.points (.fn .compare_points)
  let d := dinsert d PyType.vectorField (.fn .compare_vectorfield)
  let d := dinsert d PyType.dataFrameView (.fn .compare_dframe)
  let d := dinsert d PyType.pandasDFrame (.fn .compare_dframe)
  let d := dinsert d PyType.dframe (.fn .compare_dframe)
  let d := dinsert d PyType.bivariate (.fn .compare_bivariate)
  let d := dinsert d PyType.distribution (.fn .compare_distribution)
  let d := dinsert d PyType.regression (.fn .compare_regression)
  let d := dinsert d PyType.timeSeries (.fn .compare_timeseries)
  let d := dinsert d PyType.ndLayout (.fn .compare_gridlayout)
  let d := dinsert d PyType.adjointLayout (.fn .compare_adjointlayouts)
  let d := dinsert d PyType.ndOverlay (.fn .compare_ndoverlays)
  let d := dinsert d PyType.axisLayout (.fn .compare_grids)
  let d := dinsert d PyType.holoMap (.fn .compare_holomap)
  let d := dinsert d PyType.options (.fn .compare_options)
  d

/-- The populated dispatch table after Comparison.register() has run. -/
def registry : TypeFuncs := register equality_type_funcs0

/-- TestCase.addTypeEqualityFunc stores the function under the type key of
its per-instance dict. -/
def addTypeEqualityFunc (st : TypeFuncs) (k : PyType) (v : Asserter) : TypeFuncs :=
  dinsert st k v

/-- ComparisonTestCase.__init__: register() and then feed every entry of
the returned registry to addTypeEqualityFunc, starting from the empty
per-instance dict of TestCase. -/
def comparisonTestCase_funcs : TypeFuncs :=
  (register equality_type_funcs0).foldl
    (fun st kv => addTypeEqualityFunc st kv.1 kv.2) []

/-- The Dimensioned metadata attributes of an object (value, label and the
two dimension lists), where present. -/
def getMeta : Value → Option LabelMeta
  | .dimensioned m => some m
  | .element m _ => some m
  | .annot _ m _ => some m
  | .overlay m _ => some m
  | .layoutTree m _ => some m
  | .chart _ m _ => some m
  | .histogram m _ _ => some m
  | .matrix m _ _ => some m
  | .contours m _ => some m
  | .points _ m _ => some m
  | .itemTable m _ _ => some m
  | .table m _ _ _ => some m
  | .ndmap _ m _ => some m
  | .adjointLayout m _ => some m
  | .dframeObj _ m _ => some m
  | _ => none

/-- The ordered path/value items of an AttrTree-based container
(its keys() and values() lists zipped). -/
def getTreeItems : Value → Option (List (List String × Value))
  | .overlay _ items => some items
  | .layoutTree _ items => some items
  | _ => none

/-- The ordered key/element entries of an NdMapping-based container:
keys() is the list of first components, iteration yields the elements. -/
def getNdEntries : Value → Option (List (List Int × Value))
  | .ndmap _ _ entries => some entries
  | .table _ _ _ entries => some entries
  | _ => none

/-- The `.data` attribute of a Python object, where the model represents
it as a Value. -/
def getDataAttr : Value → Option Value
  | .element _ d => some d
  | .annot _ _ d => some d
  | .chart _ _ d => some (.ndarray d)
  | .matrix _ d _ => some (.ndarray d)
  | _ => none

/-- The elements of an AdjointLayout in iteration order. -/
def getAdjData : Value → Option (List Value)
  | .adjointLayout _ d => some d
  | _ => none

/-- The data array of a chart-like element. -/
def getChartData : Value → Option (List ℚ)
  | .chart _ _ d => some d
  | _ => none

/-- The backing DataFrame of a DataFrame-based view. -/
def getFrame : Value → Option (List (String × List ℚ))
  | .dframeObj _ _ f => some f
  | _ => none

/-- Python %-formatting of an optional message value: None prints as the
text None. -/
def pyFormat : Option String → String
  | none => "None"
  | some s => s

/-- Python set equality of two key lists: mutual membership. -/
def keySetEq (k1 k2 : List (List Int)) : Bool :=
  k1.all (fun k => k2.contains k) && k2.all (fun k => k1.contains k)

/-- Run a list of comparison results in order; the first raised error
propagates (models a Python for-loop over assertions). -/
def seqAll : List Res → Res
  | [] => Except.ok ()
  | r :: rs => r >>= fun _ => seqAll rs

/-- One pending call of the recursive comparison machinery.  Each
constructor corresponds to one method of the source: cAssertEqual to
ComparisonInterface.assertEqual, cApply to invoking a function stored in
the dispatch table, and the remaining constructors to the Comparison
classmethods of the same names. -/
inductive Call where
  | cAssertEqual (first second : Value) (msg : Option String)
  | cApply (f : FuncName) (first second : Value) (msg : Option String)
  | cLabelledData (v1 v2 : Value) (msg : Option String)
  | cDimensionLists (l1 l2 : List Dim) (msg : Option String)
  | cDimensioned (v1 v2 : Value) (msg : Option String)
  | cElements (v1 v2 : Value) (msg : Option String)
  | cTrees (v1 v2 : Value) (msg : Option String)
  | cLayouttrees (v1 v2 : Value) (msg : Option String)
  | cOverlays (v1 v2 : Value) (msg : Option String)
  | cNdmappings (v1 v2 : Value) (msg : Option String)
  | cHolomap (v1 v2 : Value) (msg : Option String)
  | cGridlayout (v1 v2 : Value) (msg : Option String)
  | cNdoverlays (v1 v2 : Value) (msg : Option String)
  | cAdjointlayouts (v1 v2 : Value) (msg : Option String)
  | cAnnot (v1 v2 : Value) (msg : Option String)
  | cVline (v1 v2 : Value) (msg : Option String)
  | cHline (v1 v2 : Value) (msg : Option String)
  | cSpline (v1 v2 : Value) (msg : Option String)
  | cArrow (v1 v2 : Value) (msg : Option String)
  | cText (v1 v2 : Value) (msg : Option String)
  | cCurve (v1 v2 : Value) (msg : Option String)
  | cHistogram (v1 v2 : Value) (msg : Option String)
  | cRaster (v1 v2 : Value) (msg : Option String)
  | cHeatmap (v1 v2 : Value) (msg : Option String)
  | cContours (v1 v2 : Value) (msg : Option String)
  | cPoints (v1 v2 : Value) (msg : Option String)
  | cVectorfield (v1 v2 : Value) (msg : Option String)
  | cMatrix (v1 v2 : Value) (msg : Option String)
  | cItemtables (v1 v2 : Value) (msg : Option String)
  | cTables (v1 v2 : Value) (msg : Option String)
  | cDframe (v1 v2 : Value) (msg : Option String)
  | cDistribution (v1 v2 : Value) (msg : Option String)
  | cTimeseries (v1 v2 : Value) (msg : Option String)
  | cBivariate (v1 v2 : Value) (msg : Option String)
  | cRegression (v1 v2 : Value) (msg : Option String)
  | cGridsInner (v1 v2 : Value) (name : String)
  | cGrids (v1 v2 : Value) (msg : Option String)
  | cOptions (v1 v2 : Value) (msg : Option String)

/-- The recursive comparison machinery.  `run tbl fuel c` executes the
pending call `c` against dispatch table `tbl`; every nested method call
consumes one unit of fuel, and exhausted fuel yields `PyError.fuelOut`
(which never happens for fuel exceeding the nesting depth).  A `msg` of
`none` models a Python call without the keyword argument, so the callee's
default message applies. -/
def run (tbl : TypeFuncs) : Nat → Call → Res
  | 0, _ => Except.error PyError.fuelOut
  | n+1, c =>
    match c with
    | .cAssertEqual first second msg =>
      match (if typeOf first = typeOf second
             then dget tbl (typeOf first) else none) with
      | none => simple_equality first second msg
      | some (.fn f) => run tbl n (.cApply f first second msg)
      | some (.sname s) =>
        match getattrFn s with
        | some f => run tbl n (.cApply f first second msg)
        | none => Except.error (PyError.attributeError s)
    | .cApply f first second msg =>
      match f with
      | .compare_floats =>
        match toArrayLike first, toArrayLike second with
        | some a1, some a2 => compare_floats a1 a2 msg
        | _, _ => Except.error (PyError.typeError ("not array-like"))
      | .compare_arrays =>
        match toArrayLike first, toArrayLike second with
        | some a1, some a2 => compare_arrays a1 a2 msg
        | _, _ => Except.error (PyError.typeError ("not array-like"))
      | .compare_dimensions =>
        match first, second with
        | .dimension d1, .dimension d2 => compare_dimensions d1 d2 msg
        | _, _ => Except.error (PyError.attributeError ("name"))
      | .compare_dimensioned => run tbl n (.cDimensioned first second msg)
      | .compare_elements => run tbl n (.cElements first second msg)
      | .compare_overlays => run tbl n (.cOverlays first second msg)
      | .compare_layouttrees => run tbl n (.cLayouttrees first second msg)
      | .compare_vline => run tbl n (.cVline first second msg)
      | .compare_hline => run tbl n (.cHline first second msg)
      | .compare_spline => run tbl n (.cSpline first second msg)
      | .compare_arrow => run tbl n (.cArrow first second msg)
      | .compare_text => run tbl n (.cText first second msg)
      | .compare_matrix => run tbl n (.cMatrix first second msg)
      | .compare_curve => run tbl n (.cCurve first second msg)
      | .compare_histogram => run tbl n (.cHistogram first second msg)
      | .compare_raster => run tbl n (.cRaster first second msg)
      | .compare_heatmap => run tbl n (.cHeatmap first second msg)
      | .compare_itemtables => run tbl n (.cItemtables first second msg)
      | .compare_tables => run tbl n (.cTables first second msg)
      | .compare_contours => run tbl n (.cContours first second msg)
      | .compare_points => run tbl n (.cPoints first second msg)
      | .compare_vectorfield => run tbl n (.cVectorfield first second msg)
      | .compare_dframe => run tbl n (.cDframe first second msg)
      | .compare_bivariate => run tbl n (.cBivariate first second msg)
      | .compare_distribution => run tbl n (.cDistribution first second msg)
      | .compare_regression => run tbl n (.cRegression first second msg)
      | .compare_timeseries => run tbl n (.cTimeseries first second msg)
      | .compare_gridlayout => run tbl n (.cGridlayout first second msg)
      | .compare_adjointlayouts => run tbl n (.cAdjointlayouts first second msg)
      | .compare_ndoverlays => run tbl n (.cNdoverlays first second msg)
      | .compare_grids => run tbl n (.cGrids first second msg)
      | .compare_holomap => run tbl n (.cHolomap first second msg)
      | .compare_options => run tbl n (.cOptions first second msg)
    | .cLabelledData v1 v2 _msg =>
      match getMeta v1, getMeta v2 with
      | some m1, some m2 =>
        run tbl n (.cAssertEqual (.str m1.value) (.str m2.value)
          (some ("Value labels mismatched."))) >>= fun _ =>
        run tbl n (.cAssertEqual (.str m1.label) (.str m2.label)
          (some ("Labels mismatched.")))
      | _, _ => Except.error (PyError.attributeError ("value"))
    | .cDimensionLists l1 l2 msg =>
      if l1.length ≠ l2.length then
        Except.error (PyError.failure ((msg.getD ("Dimension lists")) ++ " mismatched"))
      else
        seqAll ((l1.zip l2).map
          (fun p => run tbl n (.cAssertEqual (.dimension p.1) (.dimension p.2) none)))
    | .cDimensioned v1 v2 _msg =>
      match getMeta v1, getMeta v2 with
      | some m1, some m2 =>
        run tbl n (.cLabelledData v1 v2 none) >>= fun _ =>
        run tbl n (.cDimensionLists m1.value_dimensions m2.value_dimensions
          (some ("Value dimension list"))) >>= fun _ =>
        run tbl n (.cDimensionLists m1.key_dimensions m2.key_dimensions
          (some ("Key dimension list")))
      | _, _ => Except.error (PyError.attributeError ("value_dimensions"))
    | .cElements v1 v2 _msg =>
      match getDataAttr v1, getDataAttr v2 with
      | some d1, some d2 =>
        run tbl n (.cLabelledData v1 v2 none) >>= fun _ =>
        run tbl n (.cAssertEqual d1 d2 none)
      | _, _ => Except.error (PyError.attributeError ("data"))
    | .cTrees v1 v2 msg =>
      match getTreeItems v1, getTreeItems v2 with
      | some it1, some it2 =>
        if (it1.map Prod.fst).length ≠ (it2.map Prod.fst).length then
          Except.error (PyError.failure
            ((msg.getD ("Trees")) ++ " have mismatched path counts."))
        else if it1.map Prod.fst ≠ it2.map Prod.fst then
          Except.error (PyError.failure
            ((msg.getD ("Trees")) ++ " have mismatched paths."))
        else
          seqAll (((it1.map Prod.snd).zip (it2.map Prod.snd)).map
            (fun p => run tbl n (.cAssertEqual p.1 p.2 none)))
      | _, _ => Except.error (PyError.attributeError ("keys"))
    | .cLayouttrees v1 v2 _msg =>
      run tbl n (.cDimensioned v1 v2 none) >>= fun _ =>
      run tbl n (.cTrees v1 v2 (some ("LayoutTrees")))
    | .cOverlays v1 v2 _msg =>
      run tbl n (.cDimensioned v1 v2 none) >>= fun _ =>
      run tbl n (.cTrees v1 v2 (some ("Overlays")))
    | .cNdmappings v1 v2 msg =>
      match getNdEntries v1, getNdEntries v2 with
      | some e1, some e2 =>
        run tbl n (.cDimensioned v1 v2 none) >>= fun _ =>
        if (e1.map Prod.fst).length ≠ (e2.map Prod.fst).length then
          Except.error (PyError.failure
            (pyFormat msg ++ " have different numbers of keys."))
        else if ¬ keySetEq (e1.map Prod.fst) (e2.map Prod.fst) then
          Except.error (PyError.failure
            (pyFormat msg ++ " have different sets of keys."))
        else
          seqAll (((e1.map Prod.snd).zip (e2.map Prod.snd)).map
            (fun p => run tbl n (.cAssertEqual p.1 p.2 none)))
      | _, _ => Except.error (PyError.attributeError ("keys"))
    | .cHolomap v1 v2 msg =>
      run tbl n (.cDimensioned v1 v2 none) >>= fun _ =>
      run tbl n (.cNdmappings v1 v2 (some (msg.getD ("HoloMaps"))))
    | .cGridlayout v1 v2 _msg =>
      match getNdEntries v1, getNdEntries v2 with
      | some e1, some e2 =>
        run tbl n (.cDimensioned v1 v2 none) >>= fun _ =>
        if e1.length ≠ e2.length then
          Except.error (PyError.failure ("GridLayouts have different sizes."))
        else if ¬ keySetEq (e1.map Prod.fst) (e2.map Prod.fst) then
          Except.error (PyError.failure ("GridLayouts have different keys."))
        else
          seqAll (((e1.map Prod.snd).zip (e2.map Prod.snd)).map
            (fun p => run tbl n (.cAssertEqual p.1 p.2 none)))
      | _, _ => Except.error (PyError.attributeError ("keys"))
    | .cNdoverlays v1 v2 _msg =>
      match getNdEntries v1, getNdEntries v2 with
      | some e1, some e2 =>
        run tbl n (.cDimensioned v1 v2 none) >>= fun _ =>
        if e1.length ≠ e2.length then
          Except.error (PyError.failure ("NdOverlays have different lengths."))
        else
          seqAll (((e1.map Prod.snd).zip (e2.map Prod.snd)).map
            (fun p => run tbl n (.cAssertEqual p.1 p.2 none)))
      | _, _ => Except.error (PyError.attributeError ("keys"))
    | .cAdjointlayouts v1 v2 _msg =>
      match getAdjData v1, getAdjData v2 with
      | some d1, some _d2 =>
        run tbl n (.cDimensioned v1 v2 none) >>= fun _ =>
        -- the source iterates zip(el1, el1): the first layout against itself
        seqAll ((d1.zip d1).map
          (fun p => run tbl n (.cAssertEqual p.1 p.2 none)))
      | _, _ => Except.error (PyError.attributeError ("data"))
    | .cAnnot v1 v2 _msg =>
      match getDataAttr v1, getDataAttr v2 with
      | some d1, some d2 =>
        run tbl n (.cDimensioned v1 v2 none) >>= fun _ =>
        run tbl n (.cAssertEqual d1 d2 none)
      | _, _ => Except.error (PyError.attributeError ("data"))
    | .cVline v1 v2 msg => run tbl n (.cAnnot v1 v2 (some (msg.getD ("VLine"))))
    | .cHline v1 v2 msg => run tbl n (.cAnnot v1 v2 (some (msg.getD ("HLine"))))
    | .cSpline v1 v2 msg => run tbl n (.cAnnot v1 v2 (some (msg.getD ("Spline"))))
    | .cArrow v1 v2 msg => run tbl n (.cAnnot v1 v2 (some (msg.getD ("Arrow"))))
    | .cText v1 v2 msg => run tbl n (.cAnnot v1 v2 (some (msg.getD ("Text"))))
    | .cCurve v1 v2 _msg =>
      match getChartData v1, getChartData v2 with
      | some d1, some d2 =>
        run tbl n (.cDimensioned v1 v2 none) >>= fun _ =>
        compare_arrays (.arr1 d1) (.arr1 d2) (some ("Curve data"))
      | _, _ => Except.error (PyError.attributeError ("data"))
    | .cHistogram v1 v2 _msg =>
      match v1, v2 with
      | .histogram _ e1 vs1, .histogram _ e2 vs2 =>
        run tbl n (.cDimensioned v1 v2 none) >>= fun _ =>
        compare_arrays (.arr1 e1) (.arr1 e2) (some ("Histogram edges")) >>= fun _ =>
        compare_arrays (.arr1 vs1) (.arr1 vs2) (some ("Histogram values"))
      | _, _ => Except.error (PyError.attributeError ("edges"))
    | .cRaster v1 v2 _msg =>
      match getChartData v1, getChartData v2 with
      | some d1, some d2 =>
        run tbl n (.cDimensioned v1 v2 none) >>= fun _ =>
        compare_arrays (.arr1 d1) (.arr1 d2) (some ("Raster data"))
      | _, _ => Except.error (PyError.attributeError ("data"))
    | .cHeatmap v1 v2 _msg =>
      match getChartData v1, getChartData v2 with
      | some d1, some d2 =>
        run tbl n (.cDimensioned v1 v2 none) >>= fun _ =>
        compare_arrays (.arr1 d1) (.arr1 d2) (some ("HeatMap data"))
      | _, _ => Except.error (PyError.attributeError ("data"))
    | .cContours v1 v2 _msg =>
      match v1, v2 with
      | .contours _ d1, .contours _ d2 =>
        run tbl n (.cDimensioned v1 v2 none) >>= fun _ =>
        if d1.length ≠ d2.length then
          Except.error (PyError.failure
            ("Contours do not have a matching number of contours."))
        else
          seqAll ((d1.zip d2).map
            (fun p => compare_arrays (.arr1 p.1) (.arr1 p.2) (some ("Contour data"))))
      | _, _ => Except.error (PyError.attributeError ("data"))
    | .cPoints v1 v2 _msg =>
      match v1, v2 with
      | .points _ _ d1, .points _ _ d2 =>
        run tbl n (.cDimensioned v1 v2 none) >>= fun _ =>
        if d1.length ≠ d2.length then
          Except.error (PyError.failure
            ("Points objects have different numbers of points."))
        else compare_arrays (.arr2 d1) (.arr2 d2) (some ("Points data"))
      | _, _ => Except.error (PyError.attributeError ("data"))
    | .cVectorfield v1 v2 _msg =>
      match v1, v2 with
      | .points _ _ d1, .points _ _ d2 =>
        run tbl n (.cDimensioned v1 v2 none) >>= fun _ =>
        if d1.length ≠ d2.length then
          Except.error (PyError.failure
            ("VectorField objects have different numbers of vectors."))
        else compare_arrays (.arr2 d1) (.arr2 d2) (some ("VectorField data"))
      | _, _ => Except.error (PyError.attributeError ("data"))
    | .cMatrix v1 v2 msg =>
      match v1, v2 with
      | .matrix _ d1 b1, .matrix _ d2 b2 =>
        run tbl n (.cDimensioned v1 v2 none) >>= fun _ =>
        compare_arrays (.arr1 d1) (.arr1 d2) (some (msg.getD ("Matrix data"))) >>= fun _ =>
        bounds_check b1 b2
      | _, _ => Except.error (PyError.attributeError ("data"))
    | .cItemtables v1 v2 _msg =>
      match v1, v2 with
      | .itemTable m1 r1 c1, .itemTable m2 r2 c2 =>
        run tbl n (.cDimensioned v1 v2 none) >>= fun _ =>
        if r1 ≠ r2 then
          Except.error (PyError.failure ("ItemTables have different numbers of rows."))
        else if c1 ≠ c2 then
          Except.error (PyError.failure ("ItemTables have different numbers of columns."))
        else if m1.value_dimensions.map Dim.name ≠ m2.value_dimensions.map Dim.name then
          Except.error (PyError.failure ("ItemTables have different Dimensions."))
        else Except.ok ()
      | _, _ => Except.error (PyError.attributeError ("rows"))
    | .cTables v1 v2 msg =>
      match v1, v2 with
      | .table _ r1 c1 _, .table _ r2 c2 _ =>
        run tbl n (.cDimensioned v1 v2 none) >>= fun _ =>
        if r1 ≠ r2 then
          Except.error (PyError.failure ("Tables have different numbers of rows."))
        else if c1 ≠ c2 then
          Except.error (PyError.failure ("Tables have different numbers of columns."))
        else run tbl n (.cNdmappings v1 v2 msg)
      | _, _ => Except.error (PyError.attributeError ("rows"))
    | .cDframe v1 v2 msg =>
      match getFrame v1, getFrame v2 with
      | some f1, some f2 =>
        run tbl n (.cDimensioned v1 v2 none) >>= fun _ =>
        match assert_frame_equal f1 f2 with
        | .ok _ => Except.ok ()
        | .error e =>
          -- msg + ': ' + str(e); with the default msg=None this is
          -- None + str, a TypeError, not the intended failureException
          match msg with
          | none => Except.error (PyError.typeError
              ("unsupported operand type(s) for +: NoneType and str"))
          | some m => Except.error (PyError.failure (m ++ ": " ++ e))
      | _, _ => Except.error (PyError.attributeError ("data"))
    | .cDistribution v1 v2 _msg =>
      match getChartData v1, getChartData v2 with
      | some d1, some d2 =>
        run tbl n (.cDimensioned v1 v2 none) >>= fun _ =>
        compare_arrays (.arr1 d1) (.arr1 d2) (some ("Distribution data"))
      | _, _ => Except.error (PyError.attributeError ("data"))
    | .cTimeseries v1 v2 _msg =>
      match getChartData v1, getChartData v2 with
      | some d1, some d2 =>
        run tbl n (.cDimensioned v1 v2 none) >>= fun _ =>
        compare_arrays (.arr1 d1) (.arr1 d2) (some ("TimeSeries data"))
      | _, _ => Except.error (PyError.attributeError ("data"))
    | .cBivariate v1 v2 _msg =>
      match getChartData v1, getChartData v2 with
      | some d1, some d2 =>
        run tbl n (.cDimensioned v1 v2 none) >>= fun _ =>
        compare_arrays (.arr1 d1) (.arr1 d2) (some ("Bivariate data"))
      | _, _ => Except.error (PyError.attributeError ("data"))
    | .cRegression v1 v2 _msg =>
      match getChartData v1, getChartData v2 with
      | some d1, some d2 =>
        run tbl n (.cDimensioned v1 v2 none) >>= fun _ =>
        compare_arrays (.arr1 d1) (.arr1 d2) (some ("Regression data"))
      | _, _ => Except.error (PyError.attributeError ("data"))
    | .cGridsInner v1 v2 name =>
      match getNdEntries v1, getNdEntries v2 with
      | some e1, some e2 =>
        if (e1.map Prod.fst).length ≠ (e2.map Prod.fst).length then
          Except.error (PyError.failure (name ++ "s have different numbers of items."))
        else if ¬ keySetEq (e1.map Prod.fst) (e2.map Prod.fst) then
          Except.error (PyError.failure (name ++ "s have different keys."))
        else if e1.length ≠ e2.length then
          Except.error (PyError.failure (name ++ "s have different depths."))
        else
          seqAll (((e1.map Prod.snd).zip (e2.map Prod.snd)).map
            (fun p => run tbl n (.cAssertEqual p.1 p.2 none)))
      | _, _ => Except.error (PyError.attributeError ("keys"))
    | .cGrids v1 v2 _msg =>
      run tbl n (.cDimensioned v1 v2 none) >>= fun _ =>
      run tbl n (.cGridsInner v1 v2 "AxisLayout")
    | .cOptions v1 v2 _msg =>
      match v1, v2 with
      | .options kw1, .options kw2 =>
        run tbl n (.cAssertEqual (.pydict kw1) (.pydict kw2) none)
      | _, _ => Except.error (PyError.attributeError ("kwargs"))

/-- ComparisonInterface.assertEqual: dispatch on the dictionary when the
two arguments have the same concrete type, falling back to
simple_equality. -/
def assertEqual (tbl : TypeFuncs) (fuel : Nat) (first second : Value)
    (msg : Option String) : Res :=
  run tbl fuel (.cAssertEqual first second msg)

/-- Comparison.compare_labelled_data. -/
def compare_labelled_data (tbl : TypeFuncs) (fuel : Nat) (v1 v2 : Value)
    (msg : Option String) : Res :=
  run tbl fuel (.cLabelledData v1 v2 msg)

/-- Comparison.compare_dimension_lists. -/
def compare_dimension_lists (tbl : TypeFuncs) (fuel : Nat) (l1 l2 : List Dim)
    (msg : Option String) : Res :=
  run tbl fuel (.cDimensionLists l1 l2 msg)

/-- Comparison.compare_dimensioned. -/
def compare_dimensioned (tbl : TypeFuncs) (fuel : Nat) (v1 v2 : Value)
    (msg : Option String) : Res :=
  run tbl fuel (.cDimensioned v1 v2 msg)

/-- Comparison.compare_elements. -/
def compare_elements (tbl : TypeFuncs) (fuel : Nat) (v1 v2 : Value)
    (msg : Option String) : Res :=
  run tbl fuel (.cElements v1 v2 msg)

/-- Comparison.compare_trees. -/
def compare_trees (tbl : TypeFuncs) (fuel : Nat) (v1 v2 : Value)
    (msg : Option String) : Res :=
  run tbl fuel (.cTrees v1 v2 msg)

/-- Comparison.compare_layouttrees. -/
def compare_layouttrees (tbl : TypeFuncs) (fuel : Nat) (v1 v2 : Value)
    (msg : Option String) : Res :=
  run tbl fuel (.cLayouttrees v1 v2 msg)

/-- Comparison.compare_overlays. -/
def compare_overlays (tbl : TypeFuncs) (fuel : Nat) (v1 v2 : Value)
    (msg : Option String) : Res :=
  run tbl fuel (.cOverlays v1 v2 msg)

/-- Comparison.compare_ndmappings. -/
def compare_ndmappings (tbl : TypeFuncs) (fuel : Nat) (v1 v2 : Value)
    (msg : Option String) : Res :=
  run tbl fuel (.cNdmappings v1 v2 msg)

/-- Comparison.compare_holomap. -/
def compare_holomap (tbl : TypeFuncs) (fuel : Nat) (v1 v2 : Value)
    (msg : Option String) : Res :=
  run tbl fuel (.cHolomap v1 v2 msg)

/-- Comparison.compare_gridlayout. -/
def compare_gridlayout (tbl : TypeFuncs) (fuel : Nat) (v1 v2 : Value)
    (msg : Option String) : Res :=
  run tbl fuel (.cGridlayout v1 v2 msg)

/-- Comparison.compare_ndoverlays. -/
def compare_ndoverlays (tbl : TypeFuncs) (fuel : Nat) (v1 v2 : Value)
    (msg : Option String) : Res :=
  run tbl fuel (.cNdoverlays v1 v2 msg)

/-- Comparison.compare_adjointlayouts. -/
def compare_adjointlayouts (tbl : TypeFuncs) (fuel : Nat) (v1 v2 : Value)
    (msg : Option String) : Res :=
  run tbl fuel (.cAdjointlayouts v1 v2 msg)

/-- Comparison.compare_tables. -/
def compare_tables (tbl : TypeFuncs) (fuel : Nat) (v1 v2 : Value)
    (msg : Option String) : Res :=
  run tbl fuel (.cTables v1 v2 msg)

/-- Comparison.compare_itemtables. -/
def compare_itemtables (tbl : TypeFuncs) (fuel : Nat) (v1 v2 : Value)
    (msg : Option String) : Res :=
  run tbl fuel (.cItemtables v1 v2 msg)

/-- Comparison.compare_dframe. -/
def compare_dframe (tbl : TypeFuncs) (fuel : Nat) (v1 v2 : Value)
    (msg : Option String) : Res :=
  run tbl fuel (.cDframe v1 v2 msg)

/-- Comparison.compare_grids. -/
def compare_grids (tbl : TypeFuncs) (fuel : Nat) (v1 v2 : Value)
    (msg : Option String) : Res :=
  run tbl fuel (.cGrids v1 v2 msg)

/-- Comparison.compare_options. -/
def compare_options (tbl : TypeFuncs) (fuel : Nat) (v1 v2 : Value)
    (msg : Option String) : Res :=
  run tbl fuel (.cOptions v1 v2 msg)

/-- Sequencing two results succeeds exactly when both do. -/
theorem bind_ok_iff (a b : Res) :
    (a >>= fun _ => b) = Except.ok () ↔ (a = Except.ok () ∧ b = Except.ok ()) := by
  cases a with
  | error e => simp [Bind.bind, Except.bind]
  | ok u => cases u; simp [Bind.bind, Except.bind]

/-- A successful first step passes control to the second. -/
theorem bind_of_ok (a b : Res) (h : a = Except.ok ()) : (a >>= fun _ => b) = b := by
  subst h; rfl

/-- An error in the first step propagates. -/
theorem bind_of_error (a b : Res) (e : PyError) (h : a = Except.error e) :
    (a >>= fun _ => b) = Except.error e := by
  subst h; rfl

/-- seqAll succeeds exactly when every listed result does. -/
theorem seqAll_ok_iff (rs : List Res) :
    seqAll rs = Except.ok () ↔ ∀ r ∈ rs, r = Except.ok () := by
  induction rs with
  | nil => simp [seqAll]
  | cons r rs ih =>
    cases r with
    | error e => simp [seqAll, Bind.bind, Except.bind]
    | ok u => cases u; simp [seqAll, Bind.bind, Except.bind, ih]

/-- Two equally long lists are equal exactly when zipped pairs agree. -/
theorem zip_forall_eq_iff {α : Type} (l1 l2 : List α) (h : l1.length = l2.length) :
    (∀ p ∈ l1.zip l2, p.1 = p.2) ↔ l1 = l2 := by
  induction l1 generalizing l2 with
  | nil => cases l2 with
    | nil => simp
    | cons b bs => simp at h
  | cons a as ih =>
    cases l2 with
    | nil => simp at h
    | cons b bs =>
      simp only [List.zip_cons_cons, List.mem_cons, List.cons.injEq]
      constructor
      · intro hp
        refine ⟨(hp (a, b) (Or.inl rfl)), ?_⟩
        exact (ih bs (by simpa using h)).mp (fun p hp2 => hp p (Or.inr hp2))
      · rintro ⟨hab, hasbs⟩ p hp
        subst hab; subst hasbs
        rcases hp with h1 | h2
        · subst h1; rfl
        · exact ((ih as rfl).mpr rfl) p h2

/-- simple_equality returns normally exactly when the Python equality test
succeeds. -/
theorem simple_equality_ok_iff (v1 v2 : Value) (msg : Option String) :
    simple_equality v1 v2 msg = Except.ok () ↔ pyEqB v1 v2 = true := by
  unfold simple_equality
  split_ifs with h <;> simp_all

/-- simple_equality raises failureException when the Python equality test
fails. -/
theorem simple_equality_error (v1 v2 : Value) (msg : Option String)
    (h : pyEqB v1 v2 = false) :
    ∃ m, simple_equality v1 v2 msg = Except.error (PyError.failure m) := by
  unfold simple_equality
  rw [h]
  simp

/-- Strings are not registered, so assertEqual on two strings is
simple_equality. -/
theorem assertEqual_str (n : Nat) (s1 s2 : String) (msg : Option String) :
    assertEqual registry (n+1) (.str s1) (.str s2) msg =
      simple_equality (.str s1) (.str s2) msg := rfl

/-- Python `==` on strings. -/
theorem pyEqB_str (s1 s2 : String) : pyEqB (.str s1) (.str s2) = decide (s1 = s2) := rfl

/-- assertEqual on two strings succeeds exactly when they are equal. -/
theorem assertEqual_str_ok_iff (n : Nat) (s1 s2 : String) (msg : Option String) :
    assertEqual registry (n+1) (.str s1) (.str s2) msg = Except.ok () ↔ s1 = s2 := by
  rw [assertEqual_str, simple_equality_ok_iff, pyEqB_str]
  simp

/-- Dimension objects dispatch to compare_dimensions. -/
theorem assertEqual_dim (n : Nat) (d1 d2 : Dim) (msg : Option String) :
    assertEqual registry (n+2) (.dimension d1) (.dimension d2) msg =
      compare_dimensions d1 d2 msg := rfl

/-- Python floats dispatch to compare_floats over scalar array-likes. -/
theorem assertEqual_float (n : Nat) (a b : ℚ) (msg : Option String) :
    assertEqual registry (n+2) (.pyfloat a) (.pyfloat b) msg =
      compare_floats (.scalar a) (.scalar b) msg := rfl

/-- A float and an np.float64 have different concrete types, so they fall
back to simple_equality. -/
theorem assertEqual_float_np64 (n : Nat) (a b : ℚ) (msg : Option String) :
    assertEqual registry (n+1) (.pyfloat a) (.npFloat64 b) msg =
      simple_equality (.pyfloat a) (.npFloat64 b) msg := rfl

/-- Python `==` across float and np.float64 is exact numeric equality. -/
theorem pyEqB_float_np64 (a b : ℚ) :
    pyEqB (.pyfloat a) (.npFloat64 b) = decide (a = b) := rfl

/-- compare_dimensions returns normally exactly when all seven fields
agree, i.e. when the two Dimension records are equal. -/
theorem compare_dimensions_ok_iff (dim1 dim2 : Dim) (msg : Option String) :
    compare_dimensions dim1 dim2 msg = Except.ok () ↔ dim1 = dim2 := by
  obtain ⟨a1, b1, c1, t1, u1, w1, f1⟩ := dim1
  obtain ⟨a2, b2, c2, t2, u2, w2, f2⟩ := dim2
  simp only [compare_dimensions, Dim.mk.injEq]
  split_ifs with h1 h2 h3 h4 h5 h6 h7 <;> simp_all

/-- assertEqual on two Dimension objects succeeds exactly when the records
are equal. -/
theorem assertEqual_dim_ok_iff (n : Nat) (d1 d2 : Dim) (msg : Option String) :
    assertEqual registry (n+2) (.dimension d1) (.dimension d2) msg = Except.ok () ↔
      d1 = d2 := by
  rw [assertEqual_dim, compare_dimensions_ok_iff]

/-- Unfolding of compare_labelled_data for objects carrying metadata. -/
theorem compare_labelled_data_step (tbl : TypeFuncs) (n : Nat) (v1 v2 : Value)
    (m1 m2 : LabelMeta) (msg : Option String)
    (h1 : getMeta v1 = some m1) (h2 : getMeta v2 = some m2) :
    compare_labelled_data tbl (n+1) v1 v2 msg =
      (assertEqual tbl n (.str m1.value) (.str m2.value)
          (some ("Value labels mismatched.")) >>= fun _ =>
       assertEqual tbl n (.str m1.label) (.str m2.label)
          (some ("Labels mismatched."))) := by
  simp only [compare_labelled_data, assertEqual, run, h1, h2]

/-- compare_labelled_data succeeds exactly when value and label agree. -/
theorem compare_labelled_data_ok_iff (n : Nat) (v1 v2 : Value)
    (m1 m2 : LabelMeta) (msg : Option String)
    (h1 : getMeta v1 = some m1) (h2 : getMeta v2 = some m2) :
    compare_labelled_data registry (n+2) v1 v2 msg = Except.ok () ↔
      (m1.value = m2.value ∧ m1.label = m2.label) := by
  rw [compare_labelled_data_step registry (n+1) v1 v2 m1 m2 msg h1 h2]
  rw [bind_ok_iff, assertEqual_str_ok_iff, assertEqual_str_ok_iff]

/-- Unfolding of compare_dimension_lists. -/
theorem compare_dimension_lists_step (tbl : TypeFuncs) (n : Nat)
    (l1 l2 : List Dim) (msg : Option String) :
    compare_dimension_lists tbl (n+1) l1 l2 msg =
      (if l1.length ≠ l2.length then
        Except.error (PyError.failure ((msg.getD ("Dimension lists")) ++ " mismatched"))
      else
        seqAll ((l1.zip l2).map
          (fun p => assertEqual tbl n (.dimension p.1) (.dimension p.2) none))) := rfl

/-- compare_dimension_lists succeeds exactly when the two lists are equal
(same length and pairwise equal Dimension entries). -/
theorem compare_dimension_lists_ok_iff (n : Nat) (l1 l2 : List Dim)
    (msg : Option String) :
    compare_dimension_lists registry (n+3) l1 l2 msg = Except.ok () ↔ l1 = l2 := by
  rw [compare_dimension_lists_step]
  by_cases h : l1.length = l2.length
  · rw [if_neg (by simpa using h), seqAll_ok_iff]
    constructor
    · intro hall
      refine (zip_forall_eq_iff l1 l2 h).mp ?_
      intro p hp
      have hm := hall _ (List.mem_map_of_mem _ hp)
      rw [assertEqual_dim_ok_iff] at hm
      exact hm
    · intro hl r hr
      rw [List.mem_map] at hr
      obtain ⟨p, hp, rfl⟩ := hr
      rw [assertEqual_dim_ok_iff]
      exact (zip_forall_eq_iff l1 l2 h).mpr hl p hp
  · rw [if_pos h]
    constructor
    · intro hc
      exact absurd hc (by simp)
    · intro hl
      exact absurd (congrArg List.length hl) h

/-- Unfolding of compare_dimensioned for objects carrying metadata. -/
theorem compare_dimensioned_step (tbl : TypeFuncs) (n : Nat) (v1 v2 : Value)
    (m1 m2 : LabelMeta) (msg : Option String)
    (h1 : getMeta v1 = some m1) (h2 : getMeta v2 = some m2) :
    compare_dimensioned tbl (n+1) v1 v2 msg =
      (compare_labelled_data tbl n v1 v2 none >>= fun _ =>
       compare_dimension_lists tbl n m1.value_dimensions m2.value_dimensions
         (some ("Value dimension list")) >>= fun _ =>
       compare_dimension_lists tbl n m1.key_dimensions m2.key_dimensions
         (some ("Key dimension list"))) := by
  simp only [compare_dimensioned, compare_labelled_data, compare_dimension_lists,
    run, h1, h2]

/-- compare_dimensioned succeeds exactly when value, label and both
dimension lists agree. -/
theorem compare_dimensioned_ok_iff (n : Nat) (v1 v2 : Value)
    (m1 m2 : LabelMeta) (msg : Option String)
    (h1 : getMeta v1 = some m1) (h2 : getMeta v2 = some m2) :
    compare_dimensioned registry (n+4) v1 v2 msg = Except.ok () ↔
      (m1.value = m2.value ∧ m1.label = m2.label ∧
       m1.value_dimensions = m2.value_dimensions ∧
       m1.key_dimensions = m2.key_dimensions) := by
  rw [compare_dimensioned_step registry (n+3) v1 v2 m1 m2 msg h1 h2]
  rw [bind_ok_iff, bind_ok_iff]
  rw [compare_labelled_data_ok_iff (n+1) v1 v2 m1 m2 none h1 h2]
  rw [compare_dimension_lists_ok_iff, compare_dimension_lists_ok_iff]
  simp [and_assoc]

/-- Unfolding of compare_trees for tree containers. -/
theorem compare_trees_step (tbl : TypeFuncs) (n : Nat) (v1 v2 : Value)
    (it1 it2 : List (List String × Value)) (msg : Option String)
    (h1 : getTreeItems v1 = some it1) (h2 : getTreeItems v2 = some it2) :
    compare_trees tbl (n+1) v1 v2 msg =
      (if (it1.map Prod.fst).length ≠ (it2.map Prod.fst).length then
        Except.error (PyError.failure
          ((msg.getD ("Trees")) ++ " have mismatched path counts."))
      else if it1.map Prod.fst ≠ it2.map Prod.fst then
        Except.error (PyError.failure
          ((msg.getD ("Trees")) ++ " have mismatched paths."))
      else
        seqAll (((it1.map Prod.snd).zip (it2.map Prod.snd)).map
          (fun p => assertEqual tbl n p.1 p.2 none))) := by
  simp only [compare_trees, assertEqual, run, h1, h2]

/-- Unfolding of compare_ndmappings for NdMapping containers. -/
theorem compare_ndmappings_step (tbl : TypeFuncs) (n : Nat) (v1 v2 : Value)
    (e1 e2 : List (List Int × Value)) (msg : Option String)
    (h1 : getNdEntries v1 = some e1) (h2 : getNdEntries v2 = some e2) :
    compare_ndmappings tbl (n+1) v1 v2 msg =
      (compare_dimensioned tbl n v1 v2 none >>= fun _ =>
       if (e1.map Prod.fst).length ≠ (e2.map Prod.fst).length then
        Except.error (PyError.failure
          (pyFormat msg ++ " have different numbers of keys."))
      else if ¬ keySetEq (e1.map Prod.fst) (e2.map Prod.fst) then
        Except.error (PyError.failure
          (pyFormat msg ++ " have different sets of keys."))
      else
        seqAll (((e1.map Prod.snd).zip (e2.map Prod.snd)).map
          (fun p => assertEqual tbl n p.1 p.2 none))) := by
  simp only [compare_ndmappings, compare_dimensioned, assertEqual, run, h1, h2]

/-- Unfolding of compare_tables on two Table objects. -/
theorem compare_tables_step (tbl : TypeFuncs) (n : Nat)
    (m1 m2 : LabelMeta) (r1 c1 r2 c2 : Int)
    (e1 e2 : List (List Int × Value)) (msg : Option String) :
    compare_tables tbl (n+1) (.table m1 r1 c1 e1) (.table m2 r2 c2 e2) msg =
      (compare_dimensioned tbl n (.table m1 r1 c1 e1) (.table m2 r2 c2 e2) none >>= fun _ =>
       if r1 ≠ r2 then
        Except.error (PyError.failure ("Tables have different numbers of rows."))
      else if c1 ≠ c2 then
        Except.error (PyError.failure ("Tables have different numbers of columns."))
      else compare_ndmappings tbl n (.table m1 r1 c1 e1) (.table m2 r2 c2 e2) msg) := rfl

/-- Unfolding of compare_holomap. -/
theorem compare_holomap_step (tbl : TypeFuncs) (n : Nat) (v1 v2 : Value)
    (msg : Option String) :
    compare_holomap tbl (n+1) v1 v2 msg =
      (compare_dimensioned tbl n v1 v2 none >>= fun _ =>
       compare_ndmappings tbl n v1 v2 (some (msg.getD ("HoloMaps")))) := rfl

/-- Unfolding of compare_layouttrees. -/
theorem compare_layouttrees_step (tbl : TypeFuncs) (n : Nat) (v1 v2 : Value)
    (msg : Option String) :
    compare_layouttrees tbl (n+1) v1 v2 msg =
      (compare_dimensioned tbl n v1 v2 none >>= fun _ =>
       compare_trees tbl n v1 v2 (some ("LayoutTrees"))) := rfl

/-- Unfolding of compare_overlays. -/
theorem compare_overlays_step (tbl : TypeFuncs) (n : Nat) (v1 v2 : Value)
    (msg : Option String) :
    compare_overlays tbl (n+1) v1 v2 msg =
      (compare_dimensioned tbl n v1 v2 none >>= fun _ =>
       compare_trees tbl n v1 v2 (some ("Overlays"))) := rfl

/-- assertEqual falls back to simple_equality whenever the two concrete
types differ. -/
theorem assertEqual_of_type_mismatch (tbl : TypeFuncs) (n : Nat)
    (first second : Value) (msg : Option String)
    (ht : typeOf first ≠ typeOf second) :
    assertEqual tbl (n+1) first second msg = simple_equality first second msg := by
  simp only [assertEqual, run]
  rw [if_neg ht]

/-- C1: assertEqual dispatches on type.  When both arguments share one
concrete type and that exact type has an entry in equality_type_funcs, the
registered comparison function is invoked (a string-valued entry is
resolved through getattr first); in every other case (a type mismatch or
an unregistered type) equality is decided by simple_equality, which
returns normally exactly when first == second and otherwise raises
failureException. -/
theorem c1_assertEqual_dispatch (tbl : TypeFuncs) (n : Nat)
    (first second : Value) (msg : Option String) :
    (∀ f, typeOf first = typeOf second →
      dget tbl (typeOf first) = some (Asserter.fn f) →
      assertEqual tbl (n+1) first second msg = run tbl n (Call.cApply f first second msg))
  ∧ (∀ s f, typeOf first = typeOf second →
      dget tbl (typeOf first) = some (Asserter.sname s) → getattrFn s = some f →
      assertEqual tbl (n+1) first second msg = run tbl n (Call.cApply f first second msg))
  ∧ (typeOf first ≠ typeOf second →
      assertEqual tbl (n+1) first second msg = simple_equality first second msg)
  ∧ (dget tbl (typeOf first) = none →
      assertEqual tbl (n+1) first second msg = simple_equality first second msg)
  ∧ (simple_equality first second msg = Except.ok () ↔ pyEqB first second = true)
  ∧ (pyEqB first second = false →
      ∃ m, simple_equality first second msg = Except.error (PyError.failure m)) := by
  refine ⟨?_, ?_, ?_, ?_, ?_, ?_⟩
  · intro f ht h
    simp only [assertEqual, run]
    rw [if_pos ht, h]
  · intro s f ht hs hg
    simp only [assertEqual, run]
    rw [if_pos ht, hs]
    simp only [hg]
  · intro ht
    exact assertEqual_of_type_mismatch tbl n first second msg ht
  · intro h0
    simp only [assertEqual, run]
    by_cases ht : typeOf first = typeOf second
    · rw [if_pos ht, h0]
    · rw [if_neg ht]
  · exact simple_equality_ok_iff first second msg
  · exact fun h => simple_equality_error first second msg h

/-- Witness for C1 at concrete inputs: an int and a str have mismatched
types, so dispatch falls back to simple_equality, which raises. -/
theorem c1_assertEqual_dispatch_witness :
    assertEqual registry 1 (Value.int 0) (Value.str "a") none =
      simple_equality (Value.int 0) (Value.str "a") none :=
  (c1_assertEqual_dispatch registry 0 (Value.int 0) (Value.str "a") none).2.2.1
    (by decide)

/-- C9: arguments of different concrete types never reach a registered
comparator; they are compared by simple_equality, i.e. plain ==.  In
particular a Python float and an np.float64, although both types are
registered, are compared exactly rather than approximately. -/
theorem c9_cross_type_uses_simple_equality :
    (∀ (n : Nat) (first second : Value) (msg : Option String),
      typeOf first ≠ typeOf second →
      assertEqual registry (n+1) first second msg = simple_equality first second msg)
  ∧ dget registry PyType.float = some (Asserter.fn FuncName.compare_floats)
  ∧ dget registry PyType.npFloat64 = some (Asserter.fn FuncName.compare_floats)
  ∧ (∀ (n : Nat) (a b : ℚ),
      assertEqual registry (n+1) (Value.pyfloat a) (Value.npFloat64 b) none =
        Except.ok () ↔ a = b) := by
  refine ⟨?_, rfl, rfl, ?_⟩
  · intro n first second msg ht
    exact assertEqual_of_type_mismatch registry n first second msg ht
  · intro n a b
    rw [assertEqual_float_np64, simple_equality_ok_iff, pyEqB_float_np64]
    simp

/-- Witness for C9: float 1.0 equals np.float64 1.0 exactly, so the
cross-type comparison succeeds. -/
theorem c9_cross_type_uses_simple_equality_witness :
    assertEqual registry 1 (Value.pyfloat 1) (Value.npFloat64 1) none = Except.ok () :=
  (c9_cross_type_uses_simple_equality.2.2.2 0 1 1).mpr rfl

/-- C3: compare_dimensions checks name, cyclic, range, type, unit, values
and format_string in that order, raises failureException naming the first
mismatched field, and returns normally exactly when all seven fields
agree. -/
theorem c3_compare_dimensions_field_order (dim1 dim2 : Dim) (msg : Option String) :
    (compare_dimensions dim1 dim2 msg = Except.ok () ↔
      (dim1.name = dim2.name ∧ dim1.cyclic = dim2.cyclic ∧
       dim1.range = dim2.range ∧ dim1.type = dim2.type ∧
       dim1.unit = dim2.unit ∧ dim1.values = dim2.values ∧
       dim1.format_string = dim2.format_string))
  ∧ (dim1.name ≠ dim2.name →
      compare_dimensions dim1 dim2 msg = Except.error (PyError.failure
        ("Dimension names mismatched: " ++ dim1.name ++ " != " ++ dim2.name)))
  ∧ (dim1.name = dim2.name → dim1.cyclic ≠ dim2.cyclic →
      compare_dimensions dim1 dim2 msg = Except.error (PyError.failure
        ("Dimension cyclic declarations mismatched.")))
  ∧ (dim1.name = dim2.name → dim1.cyclic = dim2.cyclic → dim1.range ≠ dim2.range →
      compare_dimensions dim1 dim2 msg = Except.error (PyError.failure
        ("Dimension ranges mismatched: " ++ reprStr dim1.range ++ " != " ++ reprStr dim2.range)))
  ∧ (dim1.name = dim2.name → dim1.cyclic = dim2.cyclic → dim1.range = dim2.range →
      dim1.type ≠ dim2.type →
      compare_dimensions dim1 dim2 msg = Except.error (PyError.failure
        ("Dimension type declarations mismatched: " ++ dim1.type ++ " != " ++ dim2.type)))
  ∧ (dim1.name = dim2.name → dim1.cyclic = dim2.cyclic → dim1.range = dim2.range →
      dim1.type = dim2.type → dim1.unit ≠ dim2.unit →
      compare_dimensions dim1 dim2 msg = Except.error (PyError.failure
        ("Dimension unit declarations mismatched: " ++ dim1.unit ++ " != " ++ dim2.unit)))
  ∧ (dim1.name = dim2.name → dim1.cyclic = dim2.cyclic → dim1.range = dim2.range →
      dim1.type = dim2.type → dim1.unit = dim2.unit → dim1.values ≠ dim2.values →
      compare_dimensions dim1 dim2 msg = Except.error (PyError.failure
        ("Dimension value declarations mismatched: " ++ reprStr dim1.values ++ " != " ++ reprStr dim2.values)))
  ∧ (dim1.name = dim2.name → dim1.cyclic = dim2.cyclic → dim1.range = dim2.range →
      dim1.type = dim2.type → dim1.unit = dim2.unit → dim1.values = dim2.values →
      dim1.format_string ≠ dim2.format_string →
      compare_dimensions dim1 dim2 msg = Except.error (PyError.failure
        ("Dimension format string declarations mismatched: "
          ++ dim1.format_string ++ " != " ++ dim2.format_string))) := by
  refine ⟨?_, ?_, ?_, ?_, ?_, ?_, ?_, ?_⟩
  · rw [compare_dimensions_ok_iff]
    obtain ⟨a1, b1, c1, t1, u1, w1, f1⟩ := dim1
    obtain ⟨a2, b2, c2, t2, u2, w2, f2⟩ := dim2
    simp [Dim.mk.injEq]
  · intro h1
    simp only [compare_dimensions]
    rw [if_pos h1]
  · intro h1 h2
    simp only [compare_dimensions]
    rw [if_neg (not_not_intro h1), if_pos h2]
  · intro h1 h2 h3
    simp only [compare_dimensions]
    rw [if_neg (not_not_intro h1), if_neg (not_not_intro h2), if_pos h3]
  · intro h1 h2 h3 h4
    simp only [compare_dimensions]
    rw [if_neg (not_not_intro h1), if_neg (not_not_intro h2),
      if_neg (not_not_intro h3), if_pos h4]
  · intro h1 h2 h3 h4 h5
    simp only [compare_dimensions]
    rw [if_neg (not_not_intro h1), if_neg (not_not_intro h2),
      if_neg (not_not_intro h3), if_neg (not_not_intro h4), if_pos h5]
  · intro h1 h2 h3 h4 h5 h6
    simp only [compare_dimensions]
    rw [if_neg (not_not_intro h1), if_neg (not_not_intro h2),
      if_neg (not_not_intro h3), if_neg (not_not_intro h4),
      if_neg (not_not_intro h5), if_pos h6]
  · intro h1 h2 h3 h4 h5 h6 h7
    simp only [compare_dimensions]
    rw [if_neg (not_not_intro h1), if_neg (not_not_intro h2),
      if_neg (not_not_intro h3), if_neg (not_not_intro h4),
      if_neg (not_not_intro h5), if_neg (not_not_intro h6), if_pos h7]

/-- Two concrete Dimensions differing only in name, for the C3 witness. -/
def dimA : Dim := ⟨"a", false, none, "", "", [], ""⟩

/-- Second Dimension of the C3 witness pair. -/
def dimB : Dim := ⟨"b", false, none, "", "", [], ""⟩

/-- Witness for C3 at concrete inputs: a name mismatch is reported first. -/
theorem c3_compare_dimensions_field_order_witness :
    compare_dimensions dimA dimB none = Except.error (PyError.failure
      ("Dimension names mismatched: " ++ dimA.name ++ " != " ++ dimB.name)) :=
  (c3_compare_dimensions_field_order dimA dimB none).2.1 (by decide)

/-- C4: compare_dimensioned succeeds exactly when the value and label
attributes agree (through compare_labelled_data) and the value_dimensions
and key_dimensions lists agree (equal lengths with pairwise equal
Dimension entries, through compare_dimension_lists); a length mismatch in
either list raises failureException naming the mismatched dimension
list. -/
theorem c4_compare_dimensioned_fields (n : Nat) (v1 v2 : Value)
    (m1 m2 : LabelMeta) (msg : Option String)
    (h1 : getMeta v1 = some m1) (h2 : getMeta v2 = some m2) :
    (compare_dimensioned registry (n+4) v1 v2 msg = Except.ok () ↔
      (m1.value = m2.value ∧ m1.label = m2.label ∧
       m1.value_dimensions = m2.value_dimensions ∧
       m1.key_dimensions = m2.key_dimensions))
  ∧ (m1.value = m2.value → m1.label = m2.label →
      m1.value_dimensions.length ≠ m2.value_dimensions.length →
      compare_dimensioned registry (n+4) v1 v2 msg =
        Except.error (PyError.failure ("Value dimension list mismatched")))
  ∧ (m1.value = m2.value → m1.label = m2.label →
      m1.value_dimensions = m2.value_dimensions →
      m1.key_dimensions.length ≠ m2.key_dimensions.length →
      compare_dimensioned registry (n+4) v1 v2 msg =
        Except.error (PyError.failure ("Key dimension list mismatched"))) := by
  refine ⟨compare_dimensioned_ok_iff n v1 v2 m1 m2 msg h1 h2, ?_, ?_⟩
  · intro hv hl hlen
    rw [compare_dimensioned_step registry (n+3) v1 v2 m1 m2 msg h1 h2]
    rw [bind_of_ok _ _
      ((compare_labelled_data_ok_iff (n+1) v1 v2 m1 m2 none h1 h2).mpr ⟨hv, hl⟩)]
    rw [compare_dimension_lists_step, if_pos hlen]
    rfl
  · intro hv hl hveq hlen
    rw [compare_dimensioned_step registry (n+3) v1 v2 m1 m2 msg h1 h2]
    rw [bind_of_ok _ _
      ((compare_labelled_data_ok_iff (n+1) v1 v2 m1 m2 none h1 h2).mpr ⟨hv, hl⟩)]
    rw [bind_of_ok _ _
      ((compare_dimension_lists_ok_iff n m1.value_dimensions m2.value_dimensions
        (some ("Value dimension list"))).mpr hveq)]
    rw [compare_dimension_lists_step, if_pos hlen]
    rfl

/-- Metadata record with empty labels and no dimensions, used by the
concrete examples. -/
def meta0 : LabelMeta := ⟨"", "", [], []⟩

/-- Metadata carrying one value dimension, for the C4 witness. -/
def metaV1 : LabelMeta := ⟨"v", "l", [dimA], []⟩

/-- Metadata carrying no value dimensions, for the C4 witness. -/
def metaV2 : LabelMeta := ⟨"v", "l", [], []⟩

/-- Witness for C4 at concrete inputs: a value-dimension length mismatch
is reported as such. -/
theorem c4_compare_dimensioned_fields_witness :
    compare_dimensioned registry 4 (Value.dimensioned metaV1)
      (Value.dimensioned metaV2) none =
      Except.error (PyError.failure ("Value dimension list mismatched")) :=
  (c4_compare_dimensioned_fields 0 (Value.dimensioned metaV1)
    (Value.dimensioned metaV2) metaV1 metaV2 none rfl rfl).2.1
    (by decide) (by decide) (by decide)

/-- C6: the four float types are all registered to compare_floats, which
delegates to compare_arrays and hence numpy assert_array_almost_equal:
some unequal pairs within the default tolerance compare as equal, while
every pair differing by at least the tolerance raises failureException. -/
theorem c6_floats_compared_approximately :
    dget registry PyType.float = some (Asserter.fn FuncName.compare_floats)
  ∧ dget registry np_float = some (Asserter.fn FuncName.compare_floats)
  ∧ dget registry PyType.npFloat32 = some (Asserter.fn FuncName.compare_floats)
  ∧ dget registry PyType.npFloat64 = some (Asserter.fn FuncName.compare_floats)
  ∧ (∀ (a1 a2 : ArrayLike) (msg : Option String),
      compare_floats a1 a2 msg = compare_arrays a1 a2 (some (msg.getD ("Floats"))))
  ∧ (∃ a b : ℚ, a ≠ b ∧ ∀ n : Nat,
      assertEqual registry (n+2) (Value.pyfloat a) (Value.pyfloat b) none = Except.ok ())
  ∧ (∀ (a b : ℚ) (n : Nat), ¬ |a - b| < 3 / 2000000 →
      ∃ m, assertEqual registry (n+2) (Value.pyfloat a) (Value.pyfloat b) none =
        Except.error (PyError.failure m)) := by
  refine ⟨rfl, rfl, rfl, rfl, fun a1 a2 msg => rfl, ?_, ?_⟩
  · refine ⟨0, (2000000 : ℚ)⁻¹, by norm_num, ?_⟩
    intro n
    rw [assertEqual_float]
    have h : almostEqual 0 ((2000000 : ℚ)⁻¹) = true := by
      simp only [almostEqual, decide_eq_true_eq, abs_lt]
      constructor <;> norm_num
    simp [compare_floats, compare_arrays, aaae, h]
  · intro a b n hab
    rw [assertEqual_float]
    have h : almostEqual a b = false := by
      simp only [almostEqual, decide_eq_false_iff_not]
      exact hab
    refine ⟨"Floats" ++ ("\nArrays are not almost equal to 6 decimals").drop 11, ?_⟩
    simp [compare_floats, compare_arrays, aaae, h]

/-- Witness for C6 at concrete inputs: 0.0 and 1.0 differ beyond the
tolerance, so comparing them raises failureException. -/
theorem c6_floats_compared_approximately_witness :
    ∃ m, assertEqual registry 2 (Value.pyfloat 0) (Value.pyfloat 1) none =
      Except.error (PyError.failure m) :=
  c6_floats_compared_approximately.2.2.2.2.2.2 0 1 0
    (by rw [abs_lt]; norm_num)

/-- C7: compare_trees succeeds exactly when the two containers have
identical path sequences (hence equal path counts) and every pair of
corresponding values satisfies assertEqual; a path-count mismatch and a
path mismatch each raise failureException naming the tree kind carried in
msg.  compare_layouttrees and compare_overlays are the shared dimensioned
check followed by compare_trees with their kind name. -/
theorem c7_compare_trees_shared (n : Nat) (v1 v2 : Value)
    (it1 it2 : List (List String × Value)) (msg : Option String)
    (h1 : getTreeItems v1 = some it1) (h2 : getTreeItems v2 = some it2) :
    (compare_trees registry (n+1) v1 v2 msg = Except.ok () ↔
      (it1.map Prod.fst = it2.map Prod.fst ∧
       ∀ p ∈ (it1.map Prod.snd).zip (it2.map Prod.snd),
         assertEqual registry n p.1 p.2 none = Except.ok ()))
  ∧ ((it1.map Prod.fst).length ≠ (it2.map Prod.fst).length →
      compare_trees registry (n+1) v1 v2 msg = Except.error (PyError.failure
        ((msg.getD ("Trees")) ++ " have mismatched path counts.")))
  ∧ ((it1.map Prod.fst).length = (it2.map Prod.fst).length →
      it1.map Prod.fst ≠ it2.map Prod.fst →
      compare_trees registry (n+1) v1 v2 msg = Except.error (PyError.failure
        ((msg.getD ("Trees")) ++ " have mismatched paths.")))
  ∧ (∀ msg2 : Option String, compare_layouttrees registry (n+1) v1 v2 msg2 =
      (compare_dimensioned registry n v1 v2 none >>= fun _ =>
       compare_trees registry n v1 v2 (some ("LayoutTrees"))))
  ∧ (∀ msg2 : Option String, compare_overlays registry (n+1) v1 v2 msg2 =
      (compare_dimensioned registry n v1 v2 none >>= fun _ =>
       compare_trees registry n v1 v2 (some ("Overlays")))) := by
  refine ⟨?_, ?_, ?_, fun msg2 => rfl, fun msg2 => rfl⟩
  · rw [compare_trees_step registry n v1 v2 it1 it2 msg h1 h2]
    by_cases hlen : (it1.map Prod.fst).length = (it2.map Prod.fst).length
    · rw [if_neg (not_not_intro hlen)]
      by_cases hkeys : it1.map Prod.fst = it2.map Prod.fst
      · rw [if_neg (not_not_intro hkeys), seqAll_ok_iff]
        constructor
        · intro hall
          exact ⟨hkeys, fun p hp => hall _ (List.mem_map_of_mem _ hp)⟩
        · rintro ⟨_, hall⟩ r hr
          rw [List.mem_map] at hr
          obtain ⟨p, hp, rfl⟩ := hr
          exact hall p hp
      · rw [if_pos hkeys]
        constructor
        · intro hc; exact absurd hc (by simp)
        · rintro ⟨hk, _⟩; exact absurd hk hkeys
    · rw [if_pos hlen]
      constructor
      · intro hc; exact absurd hc (by simp)
      · rintro ⟨hk, _⟩; exact absurd (congrArg List.length hk) hlen
  · intro hlen
    rw [compare_trees_step registry n v1 v2 it1 it2 msg h1 h2, if_pos hlen]
  · intro hlen hkeys
    rw [compare_trees_step registry n v1 v2 it1 it2 msg h1 h2,
      if_neg (not_not_intro hlen), if_pos hkeys]

/-- A one-item LayoutTree for the C7 witness. -/
def treeX : Value := .layoutTree meta0 [(["A"], .int 1)]

/-- A two-item LayoutTree for the C7 witness. -/
def treeY : Value := .layoutTree meta0 [(["A"], .int 1), (["B"], .int 2)]

/-- Witness for C7 at concrete inputs: containers with different numbers
of paths report a path-count mismatch. -/
theorem c7_compare_trees_shared_witness :
    compare_trees registry 1 treeX treeY none = Except.error (PyError.failure
      ("Trees" ++ " have mismatched path counts.")) :=
  (c7_compare_trees_shared 0 treeX treeY
    [(["A"], .int 1)] [(["A"], .int 1), (["B"], .int 2)] none rfl rfl).2.1
    (by decide)

/-- First NdMapping example for C10: keys 0, 1 with elements 1, 2. -/
def ndEx1 : Value := .ndmap .holoMap meta0 [([0], .int 1), ([1], .int 2)]

/-- Second NdMapping example for C10: the same key set in reverse
insertion order, so iteration yields the elements in reverse. -/
def ndEx2 : Value := .ndmap .holoMap meta0 [([1], .int 2), ([0], .int 1)]

/-- C10: compare_ndmappings performs the dimensioned check, compares key
counts, compares key sets as unordered sets, then compares the elements
pairwise in iteration order, so mappings with identical key sets but
different iteration orders can fail; compare_holomap and compare_tables
delegate to it. -/
theorem c10_compare_ndmappings_iteration_order (n : Nat) (v1 v2 : Value)
    (e1 e2 : List (List Int × Value)) (msg : Option String)
    (h1 : getNdEntries v1 = some e1) (h2 : getNdEntries v2 = some e2) :
    (compare_ndmappings registry (n+1) v1 v2 msg = Except.ok () ↔
      (compare_dimensioned registry n v1 v2 none = Except.ok () ∧
       (e1.map Prod.fst).length = (e2.map Prod.fst).length ∧
       keySetEq (e1.map Prod.fst) (e2.map Prod.fst) = true ∧
       ∀ p ∈ (e1.map Prod.snd).zip (e2.map Prod.snd),
         assertEqual registry n p.1 p.2 none = Except.ok ()))
  ∧ (∀ msg2 : Option String, compare_holomap registry (n+1) v1 v2 msg2 =
      (compare_dimensioned registry n v1 v2 none >>= fun _ =>
       compare_ndmappings registry n v1 v2 (some (msg2.getD ("HoloMaps")))))
  ∧ (∀ (m1 m2 : LabelMeta) (r1 c1 r2 c2 : Int)
      (t1 t2 : List (List Int × Value)) (msg2 : Option String),
      compare_tables registry (n+1) (.table m1 r1 c1 t1) (.table m2 r2 c2 t2) msg2 =
        (compare_dimensioned registry n (.table m1 r1 c1 t1) (.table m2 r2 c2 t2)
            none >>= fun _ =>
         if r1 ≠ r2 then
          Except.error (PyError.failure ("Tables have different numbers of rows."))
         else if c1 ≠ c2 then
          Except.error (PyError.failure ("Tables have different numbers of columns."))
         else compare_ndmappings registry n (.table m1 r1 c1 t1)
                (.table m2 r2 c2 t2) msg2))
  ∧ (keySetEq [[(0 : Int)], [1]] [[1], [0]] = true
      ∧ compare_ndmappings registry 8 ndEx1 ndEx2 none =
          Except.error (PyError.failure ("1 != 2"))) := by
  refine ⟨?_, fun msg2 => rfl,
    fun m1 m2 r1 c1 r2 c2 t1 t2 msg2 => rfl, by decide, ?_⟩
  rw [compare_ndmappings_step registry n v1 v2 e1 e2 msg h1 h2, bind_ok_iff]
  apply and_congr_right
  intro _
  by_cases hlen : (e1.map Prod.fst).length = (e2.map Prod.fst).length
  · rw [if_neg (not_not_intro hlen)]
    by_cases hset : keySetEq (e1.map Prod.fst) (e2.map Prod.fst) = true
    · rw [if_neg (not_not_intro hset), seqAll_ok_iff]
      constructor
      · intro hall
        exact ⟨hlen, hset, fun p hp => hall _ (List.mem_map_of_mem _ hp)⟩
      · rintro ⟨_, _, hall⟩ r hr
        rw [List.mem_map] at hr
        obtain ⟨p, hp, rfl⟩ := hr
        exact hall p hp
    · rw [if_pos hset]
      constructor
      · intro hc; exact absurd hc (by simp)
      · rintro ⟨_, hs, _⟩; exact absurd hs hset
  · rw [if_pos hlen]
    constructor
    · intro hc; exact absurd hc (by simp)
    · rintro ⟨hl, _⟩; exact absurd hl hlen
  · rfl

/-- Witness for C10 at concrete inputs: identical key sets in different
insertion orders, elements mismatch positionally, so the comparison
raises. -/
theorem c10_compare_ndmappings_iteration_order_witness :
    compare_ndmappings registry 8 ndEx1 ndEx2 none =
      Except.error (PyError.failure ("1 != 2")) :=
  (c10_compare_ndmappings_iteration_order 7 ndEx1 ndEx2
    [([0], .int 1), ([1], .int 2)] [([1], .int 2), ([0], .int 1)]
    none rfl rfl).2.2.2.2

/-- First AdjointLayout example for C5: element list [1]. -/
def adjEx1 : Value := .adjointLayout meta0 [.int 1]

/-- Second AdjointLayout example for C5: identical metadata, element
list [2]. -/
def adjEx2 : Value := .adjointLayout meta0 [.int 2]

/-- C5 (code bug): compare_adjointlayouts iterates zip(el1, el1), so after
the dimensioned check it compares the first layout's elements with
themselves and never inspects the second layout's elements.  Two
AdjointLayouts with matching metadata but different elements therefore
compare as equal, although assertEqual on the differing elements raises. -/
theorem c5_adjointlayouts_zip_self_bug :
    compare_adjointlayouts registry 8 adjEx1 adjEx2 none = Except.ok ()
  ∧ getMeta adjEx1 = getMeta adjEx2
  ∧ getAdjData adjEx1 = some [Value.int 1]
  ∧ getAdjData adjEx2 = some [Value.int 2]
  ∧ assertEqual registry 8 (Value.int 1) (Value.int 2) none =
      Except.error (PyError.failure ("1 != 2")) :=
  ⟨rfl, rfl, rfl, rfl, rfl⟩

/-- First DataFrame-backed example for C2: column x = [0]. -/
def dfEx1 : Value := .dframeObj .dframe meta0 [("x", [0])]

/-- Second DataFrame-backed example for C2: identical metadata, column
x = [1]. -/
def dfEx2 : Value := .dframeObj .dframe meta0 [("x", [1])]

/-- C2 (code bug): when the frames differ, compare_dframe evaluates
msg + a string; with the default msg=None that is None + str, a
TypeError, so the registered comparator fails to raise failureException
exactly in its default-message case, while an explicit msg produces the
intended failureException. -/
theorem c2_compare_dframe_default_msg_bug :
    compare_dframe registry 6 dfEx1 dfEx2 none =
      Except.error (PyError.typeError
        ("unsupported operand type(s) for +: NoneType and str"))
  ∧ compare_dframe registry 6 dfEx1 dfEx2 (some ("DFrames")) =
      Except.error (PyError.failure ("DFrames: DataFrame are different"))
  ∧ assert_frame_equal [("x", [0])] [("x", [1])] =
      Except.error ("DataFrame are different") :=
  ⟨rfl, rfl, rfl⟩

/-- C8: register installs a comparison function for every listed variant
type and returns the dictionary; ComparisonTestCase.__init__ then feeds
every entry of the returned registry to addTypeEqualityFunc, reproducing
the same table. -/
theorem c8_register_and_testcase :
    dget registry PyType.float = some (Asserter.fn FuncName.compare_floats)
  ∧ dget registry np_float = some (Asserter.fn FuncName.compare_floats)
  ∧ dget registry PyType.npFloat32 = some (Asserter.fn FuncName.compare_floats)
  ∧ dget registry PyType.npFloat64 = some (Asserter.fn FuncName.compare_floats)
  ∧ dget registry PyType.ndarray = some (Asserter.fn FuncName.compare_arrays)
  ∧ dget registry PyType.dimension = some (Asserter.fn FuncName.compare_dimensions)
  ∧ dget registry PyType.dimensioned = some (Asserter.fn FuncName.compare_dimensioned)
  ∧ dget registry PyType.element = some (Asserter.fn FuncName.compare_elements)
  ∧ dget registry PyType.overlay = some (Asserter.fn FuncName.compare_overlays)
  ∧ dget registry PyType.layoutTree = some (Asserter.fn FuncName.compare_layouttrees)
  ∧ dget registry PyType.vline = some (Asserter.fn FuncName.compare_vline)
  ∧ dget registry PyType.hline = some (Asserter.fn FuncName.compare_hline)
  ∧ dget registry PyType.spline = some (Asserter.fn FuncName.compare_spline)
  ∧ dget registry PyType.arrow = some (Asserter.fn FuncName.compare_arrow)
  ∧ dget registry PyType.text = some (Asserter.fn FuncName.compare_text)
  ∧ dget registry PyType.matrix = some (Asserter.fn FuncName.compare_matrix)
  ∧ dget registry PyType.curve = some (Asserter.fn FuncName.compare_curve)
  ∧ dget registry PyType.histogram = some (Asserter.fn FuncName.compare_histogram)
  ∧ dget registry PyType.raster = some (Asserter.fn FuncName.compare_raster)
  ∧ dget registry PyType.heatMap = some (Asserter.fn FuncName.compare_heatmap)
  ∧ dget registry PyType.itemTable = some (Asserter.fn FuncName.compare_itemtables)
  ∧ dget registry PyType.table = some (Asserter.fn FuncName.compare_tables)
  ∧ dget registry PyType.contours = some (Asserter.fn FuncName.compare_contours)
  ∧ dget registry PyType.points = some (Asserter.fn FuncName.compare_points)
  ∧ dget registry PyType.vectorField = some (Asserter.fn FuncName.compare_vectorfield)
  ∧ dget registry PyType.dataFrameView = some (Asserter.fn FuncName.compare_dframe)
  ∧ dget registry PyType.pandasDFrame = some (Asserter.fn FuncName.compare_dframe)
  ∧ dget registry PyType.dframe = some (Asserter.fn FuncName.compare_dframe)
  ∧ dget registry PyType.bivariate = some (Asserter.fn FuncName.compare_bivariate)
  ∧ dget registry PyType.distribution = some (Asserter.fn FuncName.compare_distribution)
  ∧ dget registry PyType.regression = some (Asserter.fn FuncName.compare_regression)
  ∧ dget registry PyType.timeSeries = some (Asserter.fn FuncName.compare_timeseries)
  ∧ dget registry PyType.ndLayout = some (Asserter.fn FuncName.compare_gridlayout)
  ∧ dget registry PyType.adjointLayout = some (Asserter.fn FuncName.compare_adjointlayouts)
  ∧ dget registry PyType.ndOverlay = some (Asserter.fn FuncName.compare_ndoverlays)
  ∧ dget registry PyType.axisLayout = some (Asserter.fn FuncName.compare_grids)
  ∧ dget registry PyType.holoMap = some (Asserter.fn FuncName.compare_holomap)
  ∧ dget registry PyType.options = some (Asserter.fn FuncName.compare_options)
  ∧ register equality_type_funcs0 = registry
  ∧ comparisonTestCase_funcs = registry := by
  set_option maxRecDepth 4000 in decide

end Holoviews
